import Mathlib

/-!
Shallow embedding of `src/mcp_server.py` (Salesforce Implementation Tracker
MCP server) and verification of its specification claims.

Python strings are modelled as lists of Unicode code points (`List Nat`);
`S` converts a Lean string literal to that representation.  Clock readings
(`time.time()`) are modelled as integers (only their ordering and
differences are used by the code); HTTP statuses as integers.
-/

/-- A Python string, as its sequence of Unicode code points. -/
abbrev Str := List Nat

/-- Code-point list of a Lean string literal (used to transcribe the
Python source's string literals). -/
def S (s : String) : Str := s.toList.map Char.toNat

/-- Python `str.lower` on one code point, for the ASCII range (the only
range exercised by this program's identifiers and emails). -/
def pyLowerChar (n : Nat) : Nat := if 65 ≤ n ∧ n ≤ 90 then n + 32 else n

/-- Python `str.lower` (ASCII range). -/
def pyLower (s : Str) : Str := s.map pyLowerChar

/-- Python `str.upper` on one code point (ASCII range). -/
def pyUpperChar (n : Nat) : Nat := if 97 ≤ n ∧ n ≤ 122 then n - 32 else n

/-- Python `str.upper` (ASCII range). -/
def pyUpper (s : Str) : Str := s.map pyUpperChar

/-- Python whitespace stripped by `str.strip()` (ASCII whitespace:
space, tab, newline, carriage return, vertical tab, form feed). -/
def isPySpace (n : Nat) : Bool := n = 32 ∨ n = 9 ∨ n = 10 ∨ n = 13 ∨ n = 11 ∨ n = 12

/-- Python `str.strip()`: remove leading and trailing whitespace. -/
def pyStrip (s : Str) : Str := List.rdropWhile isPySpace (List.dropWhile isPySpace s)

/-- Python `str.split(sep)` for a one-character separator: splits on every
occurrence and keeps empty pieces (`"".split(";") == [""]`). -/
def splitSep (sep : Nat) : Str → List Str
  | [] => [[]]
  | c :: rest =>
    match splitSep sep rest with
    | [] => [[]]
    | p :: ps => if c = sep then [] :: p :: ps else (c :: p) :: ps

/-- The code point of `;`, the multipicklist separator. -/
def semi : Nat := 59

/-- Python `";".join(parts)`. -/
def joinSep (sep : Nat) : List Str → Str
  | [] => []
  | [p] => p
  | p :: q :: ps => p ++ sep :: joinSep sep (q :: ps)

/-- Lookup in a Python dict literal, keyed by string equality. -/
def dictLookup {α : Type} : List (Str × α) → Str → Option α
  | [], _ => none
  | (k0, v) :: rest, k => if k = k0 then some v else dictLookup rest k

/-- Python `", ".join(parts)` (used by the error messages). -/
def joinComma (parts : List Str) : Str := List.intercalate (S ", ") parts

/-- Python `repr` of a plain string: single quotes, switching to double
quotes when the string contains a single quote but no double quote;
backslash, quote and common control characters are escaped (other
non-printable escapes are not needed by this program's data). -/
def pyReprStr (s : Str) : Str :=
  let q : Nat := if 39 ∈ s ∧ ¬ 34 ∈ s then 34 else 39
  let esc : Nat → Str := fun n =>
    if n = 92 ∨ n = q then [92, n]
    else if n = 10 then [92, 110]
    else if n = 13 then [92, 114]
    else if n = 9 then [92, 116]
    else [n]
  q :: (s.flatMap esc) ++ [q]

/-- Python `repr` of a list of strings, as interpolated by an f-string. -/
def pyReprStrList (l : List Str) : Str :=
  [91] ++ List.intercalate (S ", ") (l.map pyReprStr) ++ [93]

/- ---------------------------------------------------------------------
Picklist valid values (static data transcribed from the source).
--------------------------------------------------------------------- -/

def VALID_IMPLEMENTATION_STAGES : List Str :=
  [S "00 - Kick Off Call", S "01 - Explore", S "02 - Planning",
   S "03 - In Progress", S "04 - Final Review", S "05 - Complete",
   S "06 - Passive", S "07 - Paused", S "08 - Unsuccessful"]

def VALID_PROGRAM_HEALTH : List Str :=
  [S "Healthy", S "Passive", S "Paused", S "Unresponsive", S "Risk",
   S "Churn", S "High Risk"]

def VALID_CONTRACT_TYPES : List Str := [S "Annual", S "Free Trial", S "Pay as you go"]

def VALID_TYPES : List Str :=
  [S "Join", S "Pure Migration", S "Join - Lite", S "Join - Quickstart", S "Other"]

def VALID_MIGRATION_TYPES : List Str :=
  [S "Customer Tooling", S "Dual-write and backfill", S "Parallel Copy",
   S "pg_dump and pg_restore", S "NA", S "TS Tooling", S "Live Migration"]

def VALID_FEATURES : List Str :=
  [S "Read Replicas", S "HA Replicas", S "Data Tiering", S "Caggs",
   S "Compression", S "Migration", S "Vector", S "Hypertables"]

def VALID_PROJECT_TASKS : List Str :=
  [S "CAGG", S "Case work", S "Compression", S "Connection Pooling",
   S "HA Replica", S "Hypershift", S "Ingest",
   S "Internal Meetings - Non Customer", S "Internal Testing", S "Migration",
   S "POC", S "Project Plan", S "Query Optimization", S "Read Replica",
   S "Replica", S "Retention", S "CNS", S "Sales", S "Sales Call",
   S "Schema Design", S "Security", S "Sizing", S "Troubleshooting", S "VPC"]

def VALID_PROJECT_TYPES : List Str :=
  [S "Churn", S "Implementation", S "Internal Meetings", S "Join",
   S "Join - Lite", S "Join - QS", S "Pre-Sales", S "Pre-Sales (Discover Call)",
   S "Projects", S "Support", S "Training"]

def VALID_RECORD_STAGES : List Str := [S "Trial", S "Pre-Production", S "Production"]

/-- Fields that can be updated on Implementation__c via the update tool
(a Python `set`; only membership is used). -/
def UPDATABLE_FIELDS : List Str :=
  [S "Implementation_Stage__c", S "Program_Health__c", S "Type__c",
   S "Contract_Type__c", S "Migration_Type__c", S "Features__c",
   S "Contracted_Hours__c", S "Percent_Complete__c", S "In_Production__c",
   S "Risks__c", S "Comments__c", S "Post_Mortem__c", S "Technical_Win__c",
   S "Migration_Source__c", S "Support_Tier__c", S "Grafana__c",
   S "Project_Doc__c", S "CDE__c", S "CSM__c", S "Customer_Start_Date__c",
   S "Kick_Off_Call__c", S "Estimated_Graduation_Date__c",
   S "Production_Date__c", S "Final_Review_Call__c", S "Next_Step_Date__c",
   S "X3_Month_Check_In__c", S "Adjustment_Days__c",
   S "ARR_Start_of_Program__c", S "ARR_End_of_Program__c",
   S "Hypertables_Start_of_Program__c", S "Hypertables_End_of_Program__c",
   S "Caggs_Start_of_Program__c", S "Caggs_End_of_Program__c",
   S "Compression_Ratio_Start_of_Program__c",
   S "Compression_Ratio_End_of_Program__c",
   S "DUM_Start_of_Program__c", S "DUM_End_of_Program__c",
   S "Number_of_Services_Start_of_Program__c",
   S "Number_of_Services_End_of_Program__c",
   S "Tiered_Data_Start_of_Program__c", S "Tiered_Data_End_of_Program__c",
   S "Contract__c", S "Billing_Category__c"]

/-- Picklist validation map: field name -> valid values list. -/
def PICKLIST_VALIDATORS : List (Str × List Str) :=
  [(S "Implementation_Stage__c", VALID_IMPLEMENTATION_STAGES),
   (S "Program_Health__c", VALID_PROGRAM_HEALTH),
   (S "Contract_Type__c", VALID_CONTRACT_TYPES),
   (S "Type__c", VALID_TYPES),
   (S "Migration_Type__c", VALID_MIGRATION_TYPES)]

/-- Multipicklist validation map. -/
def MULTIPICKLIST_VALIDATORS : List (Str × List Str) :=
  [(S "Features__c", VALID_FEATURES)]

def MAX_CREATES_PER_WINDOW : Nat := 5

def CREATE_WINDOW_SECONDS : ℤ := 60

/-- The error text of the single-picklist branch of `validate_picklist`. -/
def singlePicklistErr (field value : Str) (valid : List Str) : Str :=
  S "Invalid value '" ++ value ++ S "' for " ++ field ++
    S ". Valid values: " ++ joinComma valid

/-- The error text of the multipicklist branch of `validate_picklist`. -/
def multiPicklistErr (field : Str) (invalid : List Str) (valid : List Str) : Str :=
  S "Invalid value(s) " ++ pyReprStrList invalid ++ S " for " ++ field ++
    S ". Valid values: " ++ joinComma valid

/-- The multipicklist check of `validate_picklist`: split the value on
`;`, strip each part, and report the parts outside the valid list. -/
def multiCheck (field value : Str) : Option Str :=
  match dictLookup MULTIPICKLIST_VALIDATORS field with
  | none => none
  | some valid =>
    let parts := (splitSep semi value).map pyStrip
    let invalid := parts.filter (fun p => ¬ p ∈ valid)
    if invalid ≠ [] then some (multiPicklistErr field invalid valid) else none

/-- `validate_picklist(field, value)`: an error message if the value is
invalid for a picklist field, else `none`.  The single-valued check runs
first and returns immediately on failure; otherwise control falls through
to the multipicklist check. -/
def validate_picklist (field value : Str) : Option Str :=
  match dictLookup PICKLIST_VALIDATORS field with
  | some valid =>
    if ¬ value ∈ valid then some (singlePicklistErr field value valid)
    else multiCheck field value
  | none => multiCheck field value

example : validate_picklist (S "Program_Health__c") (S "Healthy") = none := by decide
example : (validate_picklist (S "Program_Health__c") (S "healthy")).isSome := by decide
example : validate_picklist (S "Features__c") (S "Caggs; Vector") = none := by decide
example : (validate_picklist (S "Features__c") (S "Caggs;Bad")).isSome := by decide
example : validate_picklist (S "Nonexistent__c") (S "whatever") = none := by decide

/- ---------------------------------------------------------------------
Exceptions, upstream calls and tool results.
--------------------------------------------------------------------- -/

/-- A Python exception relevant to this program: `httpx.HTTPStatusError`
(raised by `raise_for_status`, carrying the response status),
`ValueError`, or `RuntimeError`. -/
inductive PyErr
  | http (status : ℤ)
  | value (msg : Str)
  | runtime (msg : Str)
deriving DecidableEq

/-- `httpx.Response.raise_for_status()`: raises `HTTPStatusError` unless
the status is a 2xx success code. -/
def raiseForStatus (status : ℤ) : Except PyErr Unit :=
  if 200 ≤ status ∧ status < 300 then .ok () else .error (.http status)

/-- A JSON field value sent to or received from the upstream API. -/
inductive FieldVal
  | s (v : Str)
  | num (v : ℚ)
  | b (v : Bool)
deriving DecidableEq

/-- A call made through the `SalesforceClient` convenience methods. -/
inductive UpCall
  | query (soql : Str)
  | getRecord (sobject : Str) (recordId : Str) (fields : List Str)
  | createRecord (sobject : Str) (data : List (Str × FieldVal))
  | updateRecord (sobject : Str) (recordId : Str) (data : List (Str × FieldVal))
deriving DecidableEq

/-- Whether an upstream call is mutating (`create_record` / `update_record`). -/
def UpCall.isMutating : UpCall → Bool
  | .createRecord _ _ => true
  | .updateRecord _ _ _ => true
  | _ => false

/-- The plain-text messages a tool operation can return, with their
interpolated data.  Constructors correspond one-to-one to the `return`
statements of the five tools; the cosmetic record-to-text formatting of
successful reads (out of the specified core) is carried structurally. -/
inductive Msg
  | rateLimit
  | picklist (err : Str)
  | noOpportunity (oppId : Str)
  | created (recordId : Str) (implName : Str) (accountName : Str)
      (ty : Str) (contract : Str)
  | resolveFailed (err : Str)
  | accessDenied (reason : Str)
  | cannotUpdate (fields : List Str)
  | updated (nameOrId : Str) (recordId : Str) (updates : List (Str × FieldVal))
  | taskRequired
  | invalidTask (invalid : List Str)
  | invalidProjectType (v : Str)
  | invalidRecordStage (v : Str)
  | hoursLogged (hoursId : Str) (nameOrId : Str) (recordId : Str)
      (hours : ℚ) (task : Str) (taskDate : Str) (notes : Option Str)
  | customSoqlRequired
  | onlySelectAllowed
  | invalidQueryType (q : Str)
  | noResults (queryType : Str)
  | queryResults (queryType : Str) (totalSize : ℤ)
      (records : List (List (Str × FieldVal)))
  | implDetails (record : List (Str × FieldVal))
deriving DecidableEq

/-- The rejection messages named by the spec's no-partial-write policy:
rate-limit, validation (field-name or field/picklist value), and
access-denied. -/
def Msg.isRejection : Msg → Bool
  | .rateLimit => true
  | .picklist _ => true
  | .accessDenied _ => true
  | .cannotUpdate _ => true
  | .invalidTask _ => true
  | .invalidProjectType _ => true
  | .invalidRecordStage _ => true
  | _ => false

deriving instance DecidableEq for Except

/-- Outcome of one tool invocation: the value returned to the dispatch
layer (or the exception escaping the tool), plus the upstream calls made. -/
structure Run where
  result : Except PyErr Msg
  trace : List UpCall
deriving DecidableEq

/- ---------------------------------------------------------------------
SalesforceClient._request: the retry-once-on-401 plumbing.
--------------------------------------------------------------------- -/

/-- Upstream behaviour for one `_request` invocation: the status of the
first attempt, the status of the token-endpoint response should
`authenticate` be called, and the status of the retried attempt. -/
structure ReqEnv where
  status1 : ℤ
  authStatus : ℤ
  status2 : ℤ
deriving DecidableEq

/-- The HTTP activity of `_request`: requests of the original call, and
calls to `authenticate`. -/
inductive ReqEvent
  | request
  | authenticate
deriving DecidableEq

/-- `SalesforceClient._request`: issue the call; on a 401 response,
re-authenticate (`authenticate` itself raises if the token endpoint
fails) and retry the same request exactly once, returning whatever the
retry produced. -/
def sfRequest (env : ReqEnv) : Except PyErr ℤ × List ReqEvent :=
  if env.status1 = 401 then
    match raiseForStatus env.authStatus with
    | .error e => (.error e, [.request, .authenticate])
    | .ok _ => (.ok env.status2, [.request, .authenticate, .request])
  else (.ok env.status1, [.request])

/-- The convenience methods (`query`, `get_record`, `create_record`,
`update_record`) call `_request` and then `raise_for_status` on the
returned response, surfacing a failed (possibly retried) request as an
`HTTPStatusError`. -/
def sfRequestRaise (env : ReqEnv) : Except PyErr ℤ × List ReqEvent :=
  match sfRequest env with
  | (.error e, tr) => (.error e, tr)
  | (.ok status, tr) =>
    match raiseForStatus status with
    | .error e => (.error e, tr)
    | .ok _ => (.ok status, tr)

/- ---------------------------------------------------------------------
AccessControl.
--------------------------------------------------------------------- -/

/-- The state of an `AccessControl` instance. -/
structure ACState where
  user_email : Str
  user_id : Option Str
  profile_name : Option Str
  is_admin : Bool
  is_manager : Bool
deriving DecidableEq

/-- `AccessControl.__init__(sf, user_email)`: normalises the email with
`.lower().strip()` and fixes `is_manager` as verbatim equality of that
normalised email with the configured `MANAGER_EMAIL`. -/
def AccessControl_init (managerEmail : Str) (user_email : Str) : ACState :=
  { user_email := pyStrip (pyLower user_email)
    user_id := none
    profile_name := none
    is_admin := false
    is_manager := pyStrip (pyLower user_email) = managerEmail }

/-- One row of the user-lookup query result. -/
structure UserRecord where
  id : Str
  profileName : Option Str
deriving DecidableEq

/-- `AccessControl.resolve_user()`: looks up the one active user for the
normalised email, failing with `RuntimeError` on zero rows, and sets
`user_id`, `profile_name` and `is_admin` (profile equals
"System Administrator").  `is_manager` is not touched. -/
def resolve_user (st : ACState) (queryStatus : ℤ) (records : List UserRecord) :
    Except PyErr ACState × List UpCall :=
  let soql := S "SELECT Id, Profile.Name FROM User WHERE Email = '" ++
    st.user_email ++ S "' AND IsActive = true LIMIT 1"
  let tr := [UpCall.query soql]
  match raiseForStatus queryStatus with
  | .error e => (.error e, tr)
  | .ok _ =>
    match records with
    | [] => (.error (.runtime (S "No active Salesforce user found for email: " ++
        st.user_email)), tr)
    | user :: _ =>
      let pn := user.profileName.getD (S "")
      (.ok { st with
          user_id := some user.id
          profile_name := some pn
          is_admin := pn = S "System Administrator" }, tr)

/-- The fixed denial reason of `AccessControl.can_update`. -/
def deniedReason : Str :=
  S "Access denied: you are not the assigned CDE on this record. Only the CDE, admins, or the manager can update it."

/-- `AccessControl.can_update(implementation_id)`: admins and the manager
are allowed unconditionally (no fetch); otherwise fetch only the record's
`CDE__c` field and allow exactly when it equals the resolved user id. -/
def can_update (st : ACState) (getStatus : ℤ) (getCde : Option Str)
    (implementation_id : Str) : Except PyErr (Bool × Str) × List UpCall :=
  if st.is_admin ∨ st.is_manager then (.ok (true, S ""), [])
  else
    let tr := [UpCall.getRecord (S "Implementation__c") implementation_id [S "CDE__c"]]
    match raiseForStatus getStatus with
    | .error e => (.error e, tr)
    | .ok _ =>
      if getCde = st.user_id then (.ok (true, S ""), tr)
      else (.ok (false, deniedReason), tr)

/- ---------------------------------------------------------------------
resolve_implementation_id.
--------------------------------------------------------------------- -/

/-- The name-lookup SOQL issued by `resolve_implementation_id`. -/
def nameLookupSoql (name : Str) : Str :=
  S "SELECT Id FROM Implementation__c WHERE Name = '" ++ name ++ S "' LIMIT 1"

/-- `resolve_implementation_id(sf, name_or_id)`: strip the input; a
stripped string of length 15 or 18 whose first two characters lowercase
to `a0` is returned as-is with no upstream call; anything else is looked
up by exact Name, raising `ValueError` on zero rows. -/
def resolve_implementation_id (queryStatus : ℤ) (foundIds : List Str)
    (name_or_id : Str) : Except PyErr Str × List UpCall :=
  let n := pyStrip name_or_id
  if (n.length = 15 ∨ n.length = 18) ∧ pyLower (n.take 2) = S "a0" then
    (.ok n, [])
  else
    let tr := [UpCall.query (nameLookupSoql n)]
    match raiseForStatus queryStatus with
    | .error e => (.error e, tr)
    | .ok _ =>
      match foundIds with
      | [] => (.error (.value (S "No Implementation record found with Name: " ++ n)), tr)
      | id :: _ => (.ok id, tr)

example :
    (resolve_implementation_id 200 [] (S "a0B4W00000XYZab")).1 =
      .ok (S "a0B4W00000XYZab") := by decide
example : (resolve_implementation_id 200 [] (S "a0B4W00000XYZab")).2 = [] := by decide
example :
    (resolve_implementation_id 200 [S "a0B4W00000XYZab"] (S "IMPL-0042")).1 =
      .ok (S "a0B4W00000XYZab") := by decide

/- ---------------------------------------------------------------------
Rate limiting of the create-type tools.
--------------------------------------------------------------------- -/

/-- The rate-limit guard shared by `create_implementation` and
`log_hours`: `recent = [t for t in create_timestamps if now - t <
CREATE_WINDOW_SECONDS]`, rejecting when `len(recent) >=
MAX_CREATES_PER_WINDOW`. -/
def rateLimited (now : ℤ) (create_timestamps : List ℤ) : Bool :=
  MAX_CREATES_PER_WINDOW ≤
    (create_timestamps.filter (fun t => now - t < CREATE_WINDOW_SECONDS)).length

/-- An attempt is admitted when the guard does not fire. -/
def rateAdmit (now : ℤ) (create_timestamps : List ℤ) : Bool :=
  ¬ rateLimited now create_timestamps

/- ---------------------------------------------------------------------
create_implementation.
--------------------------------------------------------------------- -/

/-- Caller arguments of `create_implementation`.  `contracted_hours` is
`Optional[float]`; `features` and `migration_type` are `Optional[str]`
guarded by Python truthiness (`None` and `""` both skip). -/
structure CreateArgs where
  opportunity_id : Str
  type : Str
  contract_type : Str
  contracted_hours : Option ℚ
  features : Option Str
  migration_type : Option Str
deriving DecidableEq

/-- Python truthiness of an `Optional[str]`: `None` and the empty string
are falsy. -/
def truthy : Option Str → Bool
  | none => false
  | some s => s ≠ []

/-- One row of the Opportunity query result.  `accountName` is `none`
when `opp.get("Account", {}).get("Name")` finds nothing, which the code
replaces by `"Unknown"`. -/
structure OppRecord where
  accountId : Str
  accountName : Option Str
deriving DecidableEq

/-- Environment of one `create_implementation` invocation: the two clock
readings (`now` at the guard, `now2` at the append after a successful
create), the shared timestamp list, today's ISO date, and the upstream
responses to the Opportunity query and the create call. -/
structure CreateEnv where
  now : ℤ
  now2 : ℤ
  create_timestamps : List ℤ
  today : Str
  oppStatus : ℤ
  oppRecords : List OppRecord
  createStatus : ℤ
  createId : Option Str
deriving DecidableEq

/-- The picklist validations of `create_implementation`, in source
order; the first error is returned. -/
def createChecks (args : CreateArgs) : Option Str :=
  match validate_picklist (S "Type__c") args.type with
  | some e => some e
  | none =>
    match validate_picklist (S "Contract_Type__c") args.contract_type with
    | some e => some e
    | none =>
      match (if truthy args.migration_type then
          validate_picklist (S "Migration_Type__c") (args.migration_type.getD [])
        else none) with
      | some e => some e
      | none =>
        if truthy args.features then
          validate_picklist (S "Features__c") (args.features.getD [])
        else none

/-- The SOQL issued by `create_implementation` for the Opportunity. -/
def oppSoql (opportunity_id : Str) : Str :=
  S "SELECT Id, Name, AccountId, Account.Name, Amount, OwnerId FROM Opportunity WHERE Id = '" ++
    opportunity_id ++ S "'"

/-- The field map sent by `create_implementation` to `create_record`. -/
def createData (args : CreateArgs) (implName : Str) (accountId : Str) :
    List (Str × FieldVal) :=
  [(S "Name", FieldVal.s implName),
   (S "Opportunity__c", FieldVal.s args.opportunity_id),
   (S "Account__c", FieldVal.s accountId),
   (S "Type__c", FieldVal.s args.type),
   (S "Contract_Type__c", FieldVal.s args.contract_type),
   (S "Implementation_Stage__c", FieldVal.s (S "00 - Kick Off Call")),
   (S "Program_Health__c", FieldVal.s (S "Healthy")),
   (S "In_Production__c", FieldVal.b false)] ++
  (match args.contracted_hours with
   | some h => [(S "Contracted_Hours__c", FieldVal.num h)]
   | none => []) ++
  (if truthy args.features then [(S "Features__c", FieldVal.s (args.features.getD []))]
   else []) ++
  (if truthy args.migration_type then
     [(S "Migration_Type__c", FieldVal.s (args.migration_type.getD []))]
   else [])

/-- The `create_implementation` tool: rate-limit guard, picklist
validations, Opportunity query, record creation, and the append of a
fresh timestamp only after the create succeeded.  Returns the tool
outcome together with the new timestamp list. -/
def create_implementation (env : CreateEnv) (args : CreateArgs) : Run × List ℤ :=
  if rateLimited env.now env.create_timestamps then
    (⟨.ok .rateLimit, []⟩, env.create_timestamps)
  else
    match createChecks args with
    | some e => (⟨.ok (.picklist e), []⟩, env.create_timestamps)
    | none =>
      let tr := [UpCall.query (oppSoql args.opportunity_id)]
      match raiseForStatus env.oppStatus with
      | .error e => (⟨.error e, tr⟩, env.create_timestamps)
      | .ok _ =>
        match env.oppRecords with
        | [] => (⟨.ok (.noOpportunity args.opportunity_id), tr⟩, env.create_timestamps)
        | opp :: _ =>
          let account_name := opp.accountName.getD (S "Unknown")
          let impl_name := account_name ++ S " - " ++ args.type ++ S " - " ++ env.today
          let data := createData args impl_name opp.accountId
          let tr2 := tr ++ [UpCall.createRecord (S "Implementation__c") data]
          match raiseForStatus env.createStatus with
          | .error e => (⟨.error e, tr2⟩, env.create_timestamps)
          | .ok _ =>
            let record_id := env.createId.getD (S "unknown")
            (⟨.ok (.created record_id impl_name account_name args.type
                args.contract_type), tr2⟩,
             env.create_timestamps ++ [env.now2])

/- ---------------------------------------------------------------------
update_implementation.
--------------------------------------------------------------------- -/

/-- Environment of one `update_implementation` invocation: upstream
responses for the name-resolution query (when issued), the ownership
fetch (when issued), and the PATCH. -/
structure UpdateEnv where
  resolveStatus : ℤ
  resolveIds : List Str
  ac : ACState
  getStatus : ℤ
  getCde : Option Str
  updateStatus : ℤ
deriving DecidableEq

/-- The field names of the update dict that are outside the allow-list:
`[f for f in updates if f not in UPDATABLE_FIELDS]`. -/
def invalidFields (updates : List (Str × FieldVal)) : List Str :=
  (updates.map Prod.fst).filter (fun f => ¬ f ∈ UPDATABLE_FIELDS)

/-- The per-value validation loop of `update_implementation`: for each
entry in dict order whose value is a `str`, run `validate_picklist` and
return the first error. -/
def firstPicklistErr : List (Str × FieldVal) → Option Str
  | [] => none
  | (field, FieldVal.s v) :: rest =>
    match validate_picklist field v with
    | some e => some e
    | none => firstPicklistErr rest
  | _ :: rest => firstPicklistErr rest

/-- The `update_implementation` tool: resolve (returning the
`ValueError` text as a message), access check, field-name allow-list
check, picklist validation, then the PATCH. -/
def update_implementation (env : UpdateEnv) (record_name_or_id : Str)
    (updates : List (Str × FieldVal)) : Run :=
  match resolve_implementation_id env.resolveStatus env.resolveIds record_name_or_id with
  | (.error (.value m), tr) => ⟨.ok (.resolveFailed m), tr⟩
  | (.error e, tr) => ⟨.error e, tr⟩
  | (.ok record_id, tr) =>
    match can_update env.ac env.getStatus env.getCde record_id with
    | (.error e, tr2) => ⟨.error e, tr ++ tr2⟩
    | (.ok (allowed, reason), tr2) =>
      if ¬ allowed then ⟨.ok (.accessDenied reason), tr ++ tr2⟩
      else
        if invalidFields updates ≠ [] then
          ⟨.ok (.cannotUpdate (invalidFields updates)), tr ++ tr2⟩
        else
          match firstPicklistErr updates with
          | some e => ⟨.ok (.picklist e), tr ++ tr2⟩
          | none =>
            let tr3 := tr ++ tr2 ++
              [UpCall.updateRecord (S "Implementation__c") record_id updates]
            match raiseForStatus env.updateStatus with
            | .error e => ⟨.error e, tr3⟩
            | .ok _ => ⟨.ok (.updated record_name_or_id record_id updates), tr3⟩

/- ---------------------------------------------------------------------
log_hours.
--------------------------------------------------------------------- -/

/-- Caller arguments of `log_hours`. -/
structure LogArgs where
  record_name_or_id : Str
  hours : ℚ
  project_task : Option Str
  notes : Option Str
  task_date : Option Str
  project_type : Option Str
  record_stage : Option Str
deriving DecidableEq

/-- Environment of one `log_hours` invocation. -/
structure LogEnv where
  now : ℤ
  now2 : ℤ
  create_timestamps : List ℤ
  today : Str
  resolveStatus : ℤ
  resolveIds : List Str
  createStatus : ℤ
  createId : Option Str
deriving DecidableEq

/-- The `;`-split, stripped task-category parts that are not valid
project tasks. -/
def invalidTasks (project_task : Str) : List Str :=
  ((splitSep semi project_task).map pyStrip).filter
    (fun p => ¬ p ∈ VALID_PROJECT_TASKS)

/-- The field map sent by `log_hours` to `create_record` on
`Implementation_Hours__c`. -/
def logHoursData (args : LogArgs) (record_id : Str) (today : Str) :
    List (Str × FieldVal) :=
  [(S "Implementation__c", FieldVal.s record_id),
   (S "Hours_Worked__c", FieldVal.num args.hours),
   (S "Project_Task__c", FieldVal.s (args.project_task.getD []))] ++
  (if truthy args.notes then [(S "Notes__c", FieldVal.s (args.notes.getD []))]
   else []) ++
  (if truthy args.task_date then [(S "Task_Date__c", FieldVal.s (args.task_date.getD []))]
   else [(S "Task_Date__c", FieldVal.s today)]) ++
  (if truthy args.project_type then
     [(S "Project_Type__c", FieldVal.s (args.project_type.getD []))]
   else []) ++
  (if truthy args.record_stage then
     [(S "Record_Stage__c", FieldVal.s (args.record_stage.getD []))]
   else [])

/-- The `log_hours` tool: rate-limit guard, mandatory task category,
name resolution (returning the `ValueError` text as a message), the
semicolon-split task validation, project-type and record-stage checks,
record creation, and the append of a fresh timestamp only after the
create succeeded. -/
def log_hours (env : LogEnv) (args : LogArgs) : Run × List ℤ :=
  if rateLimited env.now env.create_timestamps then
    (⟨.ok .rateLimit, []⟩, env.create_timestamps)
  else if ¬ truthy args.project_task then
    (⟨.ok .taskRequired, []⟩, env.create_timestamps)
  else
    match resolve_implementation_id env.resolveStatus env.resolveIds
        args.record_name_or_id with
    | (.error (.value m), tr) => (⟨.ok (.resolveFailed m), tr⟩, env.create_timestamps)
    | (.error e, tr) => (⟨.error e, tr⟩, env.create_timestamps)
    | (.ok record_id, tr) =>
      if invalidTasks (args.project_task.getD []) ≠ [] then
        (⟨.ok (.invalidTask (invalidTasks (args.project_task.getD []))), tr⟩,
         env.create_timestamps)
      else if truthy args.project_type ∧
          ¬ (args.project_type.getD []) ∈ VALID_PROJECT_TYPES then
        (⟨.ok (.invalidProjectType (args.project_type.getD [])), tr⟩,
         env.create_timestamps)
      else if truthy args.record_stage ∧
          ¬ (args.record_stage.getD []) ∈ VALID_RECORD_STAGES then
        (⟨.ok (.invalidRecordStage (args.record_stage.getD [])), tr⟩,
         env.create_timestamps)
      else
        let data := logHoursData args record_id env.today
        let tr2 := tr ++ [UpCall.createRecord (S "Implementation_Hours__c") data]
        match raiseForStatus env.createStatus with
        | .error e => (⟨.error e, tr2⟩, env.create_timestamps)
        | .ok _ =>
          let hours_id := env.createId.getD (S "unknown")
          let task_date := if truthy args.task_date then args.task_date.getD []
            else env.today
          (⟨.ok (.hoursLogged hours_id args.record_name_or_id record_id args.hours
              (args.project_task.getD []) task_date args.notes), tr2⟩,
           env.create_timestamps ++ [env.now2])

/- ---------------------------------------------------------------------
query_implementations.
--------------------------------------------------------------------- -/

/-- The canned query templates, keyed by query type. -/
def cannedQueries : List (Str × Str) :=
  [(S "at_risk",
    S "SELECT Name, Id, Account__r.Name, Program_Health__c, Risks__c, Implementation_Stage__c FROM Implementation__c WHERE Program_Health__c IN ('Risk', 'High Risk', 'Churn') ORDER BY Program_Health__c"),
   (S "active",
    S "SELECT Name, Id, Account__r.Name, Implementation_Stage__c, Percent_Complete__c, Program_Health__c, Stale_Days__c FROM Implementation__c WHERE Implementation_Stage__c NOT IN ('05 - Complete', '06 - Passive', '08 - Unsuccessful') ORDER BY Implementation_Stage__c"),
   (S "bandwidth",
    S "SELECT Name, Id, Contracted_Hours__c, Actual_Hours_Spent__c, Contracted_Hours_Remaining__c FROM Implementation__c WHERE Implementation_Stage__c IN ('01 - Explore', '02 - Planning', '03 - In Progress') ORDER BY Contracted_Hours_Remaining__c ASC"),
   (S "stale",
    S "SELECT Name, Id, Stale_Days__c, Next_Step_Date__c, Implementation_Stage__c, Account__r.Name FROM Implementation__c WHERE Stale_Days__c > 14 ORDER BY Stale_Days__c DESC"),
   (S "by_stage",
    S "SELECT Implementation_Stage__c, COUNT(Id) total FROM Implementation__c GROUP BY Implementation_Stage__c ORDER BY Implementation_Stage__c")]

/-- Environment of one `query_implementations` invocation. -/
structure QueryEnv where
  queryStatus : ℤ
  records : List (List (Str × FieldVal))
  totalSize : ℤ
deriving DecidableEq

/-- Remove the Salesforce `attributes` metadata entry, as
`r.pop("attributes", None)` does. -/
def popAttributes (r : List (Str × FieldVal)) : List (Str × FieldVal) :=
  r.eraseP (fun kv => kv.1 = S "attributes")

/-- The `query_implementations` tool: custom queries must be non-empty
and start (after strip/upper) with `SELECT`; other query types select a
canned template or are rejected; the results are fetched and formatted
(grouped counts for `by_stage`, record summaries otherwise). -/
def query_implementations (env : QueryEnv) (query_type : Str)
    (custom_soql : Option Str) : Run :=
  if query_type = S "custom" then
    if ¬ truthy custom_soql then ⟨.ok .customSoqlRequired, []⟩
    else if ¬ (S "SELECT").isPrefixOf (pyUpper (pyStrip (custom_soql.getD []))) then
      ⟨.ok .onlySelectAllowed, []⟩
    else
      let tr := [UpCall.query (custom_soql.getD [])]
      match raiseForStatus env.queryStatus with
      | .error e => ⟨.error e, tr⟩
      | .ok _ =>
        if env.totalSize = 0 then ⟨.ok (.noResults query_type), tr⟩
        else ⟨.ok (.queryResults query_type env.totalSize
            (env.records.map popAttributes)), tr⟩
  else
    match dictLookup cannedQueries query_type with
    | none => ⟨.ok (.invalidQueryType query_type), []⟩
    | some soql =>
      let tr := [UpCall.query soql]
      match raiseForStatus env.queryStatus with
      | .error e => ⟨.error e, tr⟩
      | .ok _ =>
        if env.totalSize = 0 then ⟨.ok (.noResults query_type), tr⟩
        else if query_type = S "by_stage" then
          ⟨.ok (.queryResults query_type env.totalSize env.records), tr⟩
        else ⟨.ok (.queryResults query_type env.totalSize
            (env.records.map popAttributes)), tr⟩

/- ---------------------------------------------------------------------
get_implementation.
--------------------------------------------------------------------- -/

/-- The field list requested by `get_implementation`. -/
def getImplementationFields : List Str :=
  [S "Id", S "Name", S "Implementation_Stage__c", S "Program_Health__c",
   S "Type__c", S "Contract_Type__c", S "Percent_Complete__c",
   S "In_Production__c", S "Account__c", S "Opportunity__c", S "CDE__c",
   S "CSM__c", S "SA__c", S "Contracted_Hours__c", S "Actual_Hours_Spent__c",
   S "Contracted_Hours_Remaining__c", S "Days_In_Program__c", S "Join_Days__c",
   S "Contracted_Days_Remaining__c", S "Stale_Days__c", S "Features__c",
   S "Migration_Type__c", S "Risks__c", S "Comments__c", S "Post_Mortem__c",
   S "Technical_Win__c", S "Customer_Start_Date__c",
   S "Implementation_Create_Date__c", S "Kick_Off_Call__c",
   S "Program_Start_Date__c", S "Estimated_Graduation_Date__c",
   S "Calculated_Graduation_Date__c", S "Production_Date__c",
   S "Final_Review_Call__c", S "Next_Step_Date__c", S "Potential_ARR__c",
   S "Projected_Amount__c", S "Contract__c", S "ARR_Start_of_Program__c",
   S "ARR_End_of_Program__c", S "Grafana__c", S "Project_Doc__c",
   S "Migration_Source__c", S "Support_Tier__c"]

/-- Environment of one `get_implementation` invocation. -/
structure GetEnv where
  resolveStatus : ℤ
  resolveIds : List Str
  getStatus : ℤ
  getBody : List (Str × FieldVal)
deriving DecidableEq

/-- The `get_implementation` tool: name resolution (returning the
`ValueError` text as a message) then a get-by-id with the fixed field
list, formatted for display. -/
def get_implementation (env : GetEnv) (record_name_or_id : Str) : Run :=
  match resolve_implementation_id env.resolveStatus env.resolveIds
      record_name_or_id with
  | (.error (.value m), tr) => ⟨.ok (.resolveFailed m), tr⟩
  | (.error e, tr) => ⟨.error e, tr⟩
  | (.ok record_id, tr) =>
    let tr2 := tr ++ [UpCall.getRecord (S "Implementation__c") record_id
      getImplementationFields]
    match raiseForStatus env.getStatus with
    | .error e => ⟨.error e, tr2⟩
    | .ok _ => ⟨.ok (.implDetails (popAttributes env.getBody)), tr2⟩

/-- A fixed argument vector used by the concrete rate-limiter scenario. -/
def demoCreateArgs : CreateArgs :=
  ⟨S "006A", S "Join", S "Annual", none, none, none⟩

/-- A create environment at clock `i` with timestamp list `ts` and a
healthy upstream (2xx responses, one Opportunity row). -/
def demoCreateEnv (i : ℤ) (ts : List ℤ) : CreateEnv :=
  ⟨i, i, ts, S "2026-01-01", 201, [⟨S "001A", some (S "Acme")⟩], 201, some (S "a0B")⟩

/- ---------------------------------------------------------------------
Helper lemmas about the Python string primitives.
--------------------------------------------------------------------- -/

theorem head?_dropWhile_not (p : Nat → Bool) (l : Str) (c : Nat)
    (h : (List.dropWhile p l).head? = some c) : p c = false := by
  induction l with
  | nil => simp [List.dropWhile] at h
  | cons a as ih =>
    rw [List.dropWhile_cons] at h
    split at h
    · exact ih h
    · next hp => simp at h; subst h; simpa using hp

theorem head?_of_prefix {s l : Str} (c : Nat) (h : s <+: l)
    (hh : s.head? = some c) : l.head? = some c := by
  obtain ⟨t, rfl⟩ := h
  cases s with
  | nil => simp at hh
  | cons a as => simpa using hh

theorem head?_pyStrip_not_space (l : Str) (c : Nat)
    (h : (pyStrip l).head? = some c) : isPySpace c = false := by
  unfold pyStrip at h
  have h2 := head?_of_prefix c (List.rdropWhile_prefix isPySpace _) h
  exact head?_dropWhile_not isPySpace l c h2

theorem getLast?_pyStrip_not_space (l : Str) (c : Nat)
    (h : (pyStrip l).getLast? = some c) : isPySpace c = false := by
  unfold pyStrip List.rdropWhile at h
  rw [List.getLast?_reverse] at h
  exact head?_dropWhile_not isPySpace _ c h

theorem mem_pyStrip {l : Str} {c : Nat} (h : c ∈ pyStrip l) : c ∈ l := by
  unfold pyStrip at h
  exact (List.dropWhile_suffix isPySpace).subset
    ((List.rdropWhile_prefix isPySpace _).subset h)

theorem dropWhile_of_head (p : Nat → Bool) (x : Str)
    (hx : ∀ c, x.head? = some c → p c = false) : List.dropWhile p x = x := by
  cases x with
  | nil => rfl
  | cons a as => rw [List.dropWhile_cons, hx a rfl]; simp

theorem pyStrip_idem (l : Str) : pyStrip (pyStrip l) = pyStrip l := by
  conv_lhs => rw [pyStrip]
  rw [dropWhile_of_head isPySpace (pyStrip l) (head?_pyStrip_not_space l)]
  conv_lhs => rw [pyStrip]
  exact List.rdropWhile_idempotent isPySpace _

theorem splitSep_ne_nil (sep : Nat) (l : Str) : splitSep sep l ≠ [] := by
  induction l with
  | nil => simp [splitSep]
  | cons c rest ih =>
    simp only [splitSep]
    cases h : splitSep sep rest with
    | nil => exact absurd h ih
    | cons p ps => dsimp only; split <;> simp

theorem splitSep_not_mem (sep : Nat) (l : Str) :
    ∀ p ∈ splitSep sep l, sep ∉ p := by
  induction l with
  | nil => intro p hp; simp [splitSep] at hp; subst hp; simp
  | cons c rest ih =>
    intro p hp
    simp only [splitSep] at hp
    cases h : splitSep sep rest with
    | nil => exact absurd h (splitSep_ne_nil sep rest)
    | cons q qs =>
      rw [h] at hp
      by_cases hc : c = sep
      · simp only [hc, if_pos rfl] at hp
        rcases List.mem_cons.mp hp with rfl | hp2
        · simp
        · exact ih p (h ▸ hp2)
      · simp only [if_neg hc] at hp
        rcases List.mem_cons.mp hp with rfl | hp2
        · intro hmem
          rcases List.mem_cons.mp hmem with h1 | h2
          · exact hc h1.symm
          · exact ih q (h ▸ List.mem_cons_self q qs) h2
        · exact ih p (h ▸ List.mem_cons_of_mem q hp2)

theorem splitSep_single (sep : Nat) (p : Str) (h : sep ∉ p) :
    splitSep sep p = [p] := by
  induction p with
  | nil => rfl
  | cons c cs ih =>
    have hc : ¬ c = sep := by rintro rfl; exact h (List.mem_cons_self _ _)
    have hcs : sep ∉ cs := fun hm => h (List.mem_cons_of_mem _ hm)
    simp only [splitSep, ih hcs, if_neg hc]

theorem splitSep_append (sep : Nat) (p t : Str) (h : sep ∉ p) :
    splitSep sep (p ++ sep :: t) = p :: splitSep sep t := by
  induction p with
  | nil =>
    simp only [List.nil_append, splitSep]
    cases hs : splitSep sep t with
    | nil => exact absurd hs (splitSep_ne_nil sep t)
    | cons q qs => simp
  | cons c cs ih =>
    have hc : ¬ c = sep := by rintro rfl; exact h (List.mem_cons_self _ _)
    have hcs : sep ∉ cs := fun hm => h (List.mem_cons_of_mem _ hm)
    simp only [List.cons_append, splitSep, List.append_eq, ih hcs, if_neg hc]

theorem splitSep_joinSep (sep : Nat) (ps : List Str) (hne : ps ≠ [])
    (h : ∀ p ∈ ps, sep ∉ p) : splitSep sep (joinSep sep ps) = ps := by
  induction ps with
  | nil => exact absurd rfl hne
  | cons p qs ih =>
    cases qs with
    | nil => exact splitSep_single sep p (h p (List.mem_cons_self _ _))
    | cons q rs =>
      rw [joinSep, splitSep_append sep p _ (h p (List.mem_cons_self _ _)),
        ih (by simp) (fun r hr => h r (List.mem_cons_of_mem _ hr))]

theorem splitTrim_rejoin (v : Str) :
    (splitSep semi (joinSep semi ((splitSep semi v).map pyStrip))).map pyStrip =
      (splitSep semi v).map pyStrip := by
  have hne : (splitSep semi v).map pyStrip ≠ [] := by
    simpa using splitSep_ne_nil semi v
  have hmem : ∀ p ∈ (splitSep semi v).map pyStrip, semi ∉ p := by
    intro p hp
    obtain ⟨q, hq, rfl⟩ := List.mem_map.mp hp
    intro hsemi
    exact splitSep_not_mem semi v q hq (mem_pyStrip hsemi)
  rw [splitSep_joinSep semi _ hne hmem, List.map_map]
  have : pyStrip ∘ pyStrip = pyStrip := funext pyStrip_idem
  rw [this]

/- ---------------------------------------------------------------------
Characterisation of validate_picklist.
--------------------------------------------------------------------- -/

theorem single_lookup_multi_none (field : Str) (valid : List Str)
    (h : dictLookup PICKLIST_VALIDATORS field = some valid) :
    dictLookup MULTIPICKLIST_VALIDATORS field = none := by
  simp only [PICKLIST_VALIDATORS, dictLookup] at h
  split_ifs at h with h1 h2 h3 h4 h5
  · rw [h1]; decide
  · rw [h2]; decide
  · rw [h3]; decide
  · rw [h4]; decide
  · rw [h5]; decide

theorem multi_lookup_single_none (field : Str) (valid : List Str)
    (h : dictLookup MULTIPICKLIST_VALIDATORS field = some valid) :
    dictLookup PICKLIST_VALIDATORS field = none := by
  simp only [MULTIPICKLIST_VALIDATORS, dictLookup] at h
  split_ifs at h with h1
  · rw [h1]; decide

theorem validate_single_eq (field value : Str) (valid : List Str)
    (h : dictLookup PICKLIST_VALIDATORS field = some valid) :
    validate_picklist field value =
      (if value ∈ valid then none
       else some (singlePicklistErr field value valid)) := by
  have h2 := single_lookup_multi_none field valid h
  unfold validate_picklist
  rw [h]
  by_cases hv : value ∈ valid
  · simp only [hv, not_true_eq_false, if_neg, if_pos, ite_false, ite_true]
    unfold multiCheck
    rw [h2]
  · simp [hv]

theorem validate_multi_eq (field value : Str) (valid : List Str)
    (h : dictLookup MULTIPICKLIST_VALIDATORS field = some valid) :
    validate_picklist field value =
      (if ((splitSep semi value).map pyStrip).filter (fun p => ¬ p ∈ valid) ≠ [] then
        some (multiPicklistErr field
          (((splitSep semi value).map pyStrip).filter (fun p => ¬ p ∈ valid)) valid)
       else none) := by
  have h2 := multi_lookup_single_none field valid h
  unfold validate_picklist
  rw [h2]
  unfold multiCheck
  rw [h]

theorem validate_absent_eq (field value : Str)
    (h1 : dictLookup PICKLIST_VALIDATORS field = none)
    (h2 : dictLookup MULTIPICKLIST_VALIDATORS field = none) :
    validate_picklist field value = none := by
  unfold validate_picklist
  rw [h1]
  unfold multiCheck
  rw [h2]

/- ---------------------------------------------------------------------
Claim C6 and claim C8.
--------------------------------------------------------------------- -/

/-- C6: for every field and value, a field with a single-valued domain
passes `validate_picklist` iff the value equals a domain member exactly,
and otherwise yields the error listing the full valid set; a field with
a multi-valued domain passes iff every `;`-split, stripped part is a
domain member, and otherwise yields the error reporting all invalid
parts plus the valid set; a field absent from both maps always passes. -/
theorem C6_validate_picklist :
    (∀ field value valid, dictLookup PICKLIST_VALIDATORS field = some valid →
      (validate_picklist field value = none ↔ value ∈ valid) ∧
      (¬ value ∈ valid →
        validate_picklist field value = some (singlePicklistErr field value valid))) ∧
    (∀ field value valid, dictLookup MULTIPICKLIST_VALIDATORS field = some valid →
      (validate_picklist field value = none ↔
        ∀ p ∈ (splitSep semi value).map pyStrip, p ∈ valid) ∧
      (((splitSep semi value).map pyStrip).filter (fun p => ¬ p ∈ valid) ≠ [] →
        validate_picklist field value = some (multiPicklistErr field
          (((splitSep semi value).map pyStrip).filter (fun p => ¬ p ∈ valid)) valid))) ∧
    (∀ field value, dictLookup PICKLIST_VALIDATORS field = none →
      dictLookup MULTIPICKLIST_VALIDATORS field = none →
      validate_picklist field value = none) := by
  refine ⟨fun field value valid h => ?_, fun field value valid h => ?_,
    fun field value h1 h2 => validate_absent_eq field value h1 h2⟩
  · rw [validate_single_eq field value valid h]
    constructor
    · constructor
      · intro hnone
        by_contra hv
        rw [if_neg hv] at hnone
        exact Option.noConfusion hnone
      · intro hv
        rw [if_pos hv]
    · intro hv
      rw [if_neg hv]
  · rw [validate_multi_eq field value valid h]
    constructor
    · constructor
      · intro hnone
        by_contra hv
        push_neg at hv
        obtain ⟨p, hp, hpv⟩ := hv
        have : ((splitSep semi value).map pyStrip).filter (fun p => ¬ p ∈ valid) ≠ [] := by
          intro hnil
          rw [List.filter_eq_nil_iff] at hnil
          have hmem := hnil p hp
          simp at hmem
          exact hpv hmem
        rw [if_pos this] at hnone
        exact Option.noConfusion hnone
      · intro hall
        have hnil : ((splitSep semi value).map pyStrip).filter (fun p => ¬ p ∈ valid) = [] := by
          rw [List.filter_eq_nil_iff]
          intro p hp
          simpa using hall p hp
        rw [if_neg (not_not_intro hnil)]
    · intro hne
      rw [if_pos hne]

/-- C6 witness: the theorem applied at concrete inputs of each kind. -/
theorem C6_validate_picklist_witness :
    dictLookup PICKLIST_VALIDATORS (S "Program_Health__c") = some VALID_PROGRAM_HEALTH ∧
    (validate_picklist (S "Program_Health__c") (S "Healthy") = none ↔
      S "Healthy" ∈ VALID_PROGRAM_HEALTH) ∧
    dictLookup MULTIPICKLIST_VALIDATORS (S "Features__c") = some VALID_FEATURES ∧
    validate_picklist (S "Nonexistent__c") (S "x") = none := by
  refine ⟨by decide, ?_, by decide, ?_⟩
  · exact (C6_validate_picklist.1 (S "Program_Health__c") (S "Healthy")
      VALID_PROGRAM_HEALTH (by decide)).1
  · exact C6_validate_picklist.2.2 (S "Nonexistent__c") (S "x") (by decide) (by decide)

/-- C8: for a multipicklist field, validation is idempotent under
split-and-trim: validating the value obtained by splitting on `;`,
stripping each part and re-joining with `;` gives the same result
(hence the same accept/reject outcome) as validating the original. -/
theorem C8_split_trim_idempotent (field : Str) (valid : List Str) (v : Str)
    (h : dictLookup MULTIPICKLIST_VALIDATORS field = some valid) :
    validate_picklist field (joinSep semi ((splitSep semi v).map pyStrip)) =
      validate_picklist field v := by
  rw [validate_multi_eq field _ valid h, validate_multi_eq field v valid h,
    splitTrim_rejoin]

/-- C8 witness: the theorem applied to a concrete padded value. -/
theorem C8_split_trim_idempotent_witness :
    dictLookup MULTIPICKLIST_VALIDATORS (S "Features__c") = some VALID_FEATURES ∧
    validate_picklist (S "Features__c")
        (joinSep semi ((splitSep semi (S " Caggs;  Vector ; Bad ")).map pyStrip)) =
      validate_picklist (S "Features__c") (S " Caggs;  Vector ; Bad ") :=
  ⟨by decide,
   C8_split_trim_idempotent (S "Features__c") VALID_FEATURES
     (S " Caggs;  Vector ; Bad ") (by decide)⟩

/- ---------------------------------------------------------------------
Claim C4: the identifier resolver.
--------------------------------------------------------------------- -/

theorem raiseForStatus_ok (s : ℤ) (h : 200 ≤ s ∧ s < 300) :
    raiseForStatus s = .ok () := by
  unfold raiseForStatus
  rw [if_pos h]

theorem raiseForStatus_err (s : ℤ) (h : ¬ (200 ≤ s ∧ s < 300)) :
    raiseForStatus s = .error (.http s) := by
  unfold raiseForStatus
  rw [if_neg h]

/-- C4 counterexample: an input of length 15 whose first two characters
are `a0` (so the claim promises it is returned unchanged with no query)
but which carries a trailing space: the code strips it first, the
stripped string has length 14, and a name-lookup query is issued; the
input is not returned unchanged. -/
theorem C4_counterexample :
    ((S "a0123456789012 ").length = 15 ∧
      pyLower ((S "a0123456789012 ").take 2) = S "a0") ∧
    (resolve_implementation_id 200 [] (S "a0123456789012 ")).2 ≠ [] ∧
    (resolve_implementation_id 200 [] (S "a0123456789012 ")).1 ≠
      .ok (S "a0123456789012 ") := by decide

/-- C4 (amended): the 15-or-18-with-prefix-`a0` check is applied to the
stripped input, and the stripped input is what is returned without any
query; any other input issues exactly one exact-match name-lookup query
and fails with `ValueError` (RecordNotFound) when it yields zero rows. -/
theorem C4_resolve_implementation_id (queryStatus : ℤ) (foundIds : List Str)
    (input : Str) :
    ((((pyStrip input).length = 15 ∨ (pyStrip input).length = 18) ∧
        pyLower ((pyStrip input).take 2) = S "a0") →
      resolve_implementation_id queryStatus foundIds input = (.ok (pyStrip input), [])) ∧
    (¬ (((pyStrip input).length = 15 ∨ (pyStrip input).length = 18) ∧
        pyLower ((pyStrip input).take 2) = S "a0") →
      (resolve_implementation_id queryStatus foundIds input).2 =
        [UpCall.query (nameLookupSoql (pyStrip input))] ∧
      (200 ≤ queryStatus ∧ queryStatus < 300 → foundIds = [] →
        (resolve_implementation_id queryStatus foundIds input).1 =
          .error (.value (S "No Implementation record found with Name: " ++
            pyStrip input)))) := by
  constructor
  · intro hcond
    unfold resolve_implementation_id
    rw [if_pos hcond]
  · intro hcond
    unfold resolve_implementation_id
    rw [if_neg hcond]
    constructor
    · cases raiseForStatus queryStatus with
      | error e => rfl
      | ok u => cases foundIds <;> rfl
    · intro h2xx hnil
      rw [raiseForStatus_ok queryStatus h2xx, hnil]

/-- C4 witness: the amended theorem applied to a padded canonical id and
to a name that the upstream does not know. -/
theorem C4_resolve_implementation_id_witness :
    resolve_implementation_id 200 [] (S " a0B4W00000XYZab ") =
      (.ok (pyStrip (S " a0B4W00000XYZab ")), []) ∧
    (resolve_implementation_id 200 [] (S "IMPL-0042")).1 =
      .error (.value (S "No Implementation record found with Name: " ++
        pyStrip (S "IMPL-0042"))) := by
  constructor
  · exact (C4_resolve_implementation_id 200 [] (S " a0B4W00000XYZab ")).1 (by decide)
  · exact ((C4_resolve_implementation_id 200 [] (S "IMPL-0042")).2
      (by decide)).2 (by decide) rfl

/- ---------------------------------------------------------------------
Claim C2: the access-control decision.
--------------------------------------------------------------------- -/

/-- C2: `can_update` allows admins and the manager unconditionally, with
an empty reason and without fetching anything; for everyone else it
fetches only the record's `CDE__c` field and, when the fetch succeeds,
allows exactly when the owner id equals the resolved user id, otherwise
denying with the fixed human-readable reason. -/
theorem C2_can_update :
    (∀ st gs gc id, (st.is_admin = true ∨ st.is_manager = true) →
      can_update st gs gc id = (.ok (true, S ""), [])) ∧
    (∀ st gs gc id, ¬ (st.is_admin = true ∨ st.is_manager = true) →
      (can_update st gs gc id).2 =
        [UpCall.getRecord (S "Implementation__c") id [S "CDE__c"]] ∧
      ((200 ≤ gs ∧ gs < 300) →
        ((can_update st gs gc id).1 = .ok (true, S "") ↔ gc = st.user_id) ∧
        (gc ≠ st.user_id →
          (can_update st gs gc id).1 = .ok (false, deniedReason)))) := by
  constructor
  · intro st gs gc id h
    unfold can_update
    rw [if_pos h]
  · intro st gs gc id h
    unfold can_update
    rw [if_neg h]
    constructor
    · cases raiseForStatus gs with
      | error e => rfl
      | ok u => by_cases hgc : gc = st.user_id <;> simp [hgc]
    · intro h2xx
      rw [raiseForStatus_ok gs h2xx]
      dsimp only
      constructor
      · by_cases hgc : gc = st.user_id
        · simp [hgc]
        · rw [if_neg hgc]
          constructor
          · intro heq
            exact absurd (congrArg Prod.fst (Except.ok.inj heq)) (by simp)
          · intro heq
            exact absurd heq hgc
      · intro hgc
        rw [if_neg hgc]

/-- C2 witness: an admin identity and a non-owning plain identity. -/
theorem C2_can_update_witness :
    can_update ⟨S "u@x.com", some (S "005A"), some (S "System Administrator"),
        true, false⟩ 200 none (S "a0B") = (.ok (true, S ""), []) ∧
    (can_update ⟨S "v@x.com", some (S "005A"), some (S "Standard User"),
        false, false⟩ 200 (some (S "005B")) (S "a0B")).1 =
      .ok (false, deniedReason) := by
  constructor
  · exact C2_can_update.1 _ 200 none (S "a0B") (Or.inl rfl)
  · exact ((C2_can_update.2 _ 200 (some (S "005B")) (S "a0B")
      (by decide)).2 (by decide)).2 (by decide)

/- ---------------------------------------------------------------------
Claim C10: the is_manager flag.
--------------------------------------------------------------------- -/

theorem init_is_manager_iff (managerEmail user_email : Str) :
    (AccessControl_init managerEmail user_email).is_manager = true ↔
      pyStrip (pyLower user_email) = managerEmail := by
  simp [AccessControl_init]

theorem pyLower_no_upper {u : Str} {c : Nat} (hc : c ∈ pyLower u)
    (h65 : 65 ≤ c) (h90 : c ≤ 90) : False := by
  obtain ⟨d, _, rfl⟩ := List.mem_map.mp hc
  unfold pyLowerChar at h65 h90
  split_ifs at h65 h90 with hd
  · omega
  · exact hd ⟨h65, h90⟩

/-- C10: `is_manager` is fixed at `AccessControl` construction as the
lowercased-then-stripped user email compared verbatim with the
configured manager email; `resolve_user` (the only later state change)
never alters it; and a manager email containing an ASCII uppercase
letter, or whose first or last character is whitespace, can never grant
manager status, for any user email. -/
theorem C10_is_manager :
    (∀ managerEmail user_email,
      (AccessControl_init managerEmail user_email).is_manager = true ↔
        pyStrip (pyLower user_email) = managerEmail) ∧
    (∀ st qs recs st' tr, resolve_user st qs recs = (.ok st', tr) →
      st'.is_manager = st.is_manager) ∧
    (∀ managerEmail user_email c, c ∈ managerEmail → 65 ≤ c → c ≤ 90 →
      (AccessControl_init managerEmail user_email).is_manager = false) ∧
    (∀ managerEmail user_email c,
      (managerEmail.head? = some c ∨ managerEmail.getLast? = some c) →
      isPySpace c = true →
      (AccessControl_init managerEmail user_email).is_manager = false) := by
  refine ⟨init_is_manager_iff, ?_, ?_, ?_⟩
  · intro st qs recs st' tr h
    unfold resolve_user at h
    cases hr : raiseForStatus qs with
    | error e => rw [hr] at h; simp at h
    | ok u =>
      rw [hr] at h
      cases recs with
      | nil => simp at h
      | cons user rest =>
        simp only [Prod.mk.injEq, Except.ok.injEq] at h
        rw [← h.1]
  · intro managerEmail user_email c hc h65 h90
    rw [← Bool.not_eq_true, init_is_manager_iff]
    intro heq
    rw [← heq] at hc
    exact pyLower_no_upper (mem_pyStrip hc) h65 h90
  · intro managerEmail user_email c hends hsp
    rw [← Bool.not_eq_true, init_is_manager_iff]
    intro heq
    rcases hends with hh | hl
    · rw [← heq] at hh
      rw [head?_pyStrip_not_space (pyLower user_email) c hh] at hsp
      exact Bool.noConfusion hsp
    · rw [← heq] at hl
      rw [getLast?_pyStrip_not_space (pyLower user_email) c hl] at hsp
      exact Bool.noConfusion hsp

/-- C10 witness: a manager email with an uppercase letter never matches;
a successful `resolve_user` run keeps the flag. -/
theorem C10_is_manager_witness :
    ((65 : Nat) ∈ S "Admin@x.com" ∧
      (AccessControl_init (S "Admin@x.com") (S "Admin@x.com")).is_manager = false) ∧
    (⟨S "u@x.com", some (S "005A"), some (S "Standard User"), false, true⟩ :
        ACState).is_manager =
      (⟨S "u@x.com", none, none, false, true⟩ : ACState).is_manager := by
  constructor
  · exact ⟨by decide,
      C10_is_manager.2.2.1 (S "Admin@x.com") (S "Admin@x.com") 65 (by decide)
        (by decide) (by decide)⟩
  · exact C10_is_manager.2.1 ⟨S "u@x.com", none, none, false, true⟩ 200
      [⟨S "005A", some (S "Standard User")⟩]
      ⟨S "u@x.com", some (S "005A"), some (S "Standard User"), false, true⟩
      [UpCall.query (S "SELECT Id, Profile.Name FROM User WHERE Email = 'u@x.com' AND IsActive = true LIMIT 1")]
      (by decide)

/- ---------------------------------------------------------------------
Claim C5: the retry-once-on-401 plumbing.
--------------------------------------------------------------------- -/

/-- C5 counterexample: when the first response is a 401 and the
re-authentication itself fails (the token endpoint answers 500),
`authenticate` raises and the request is never retried — only one
request is issued, not the "exactly one retry" the claim asserts for
every 401. -/
theorem C5_counterexample :
    (⟨401, 500, 200⟩ : ReqEnv).status1 = 401 ∧
    (sfRequest ⟨401, 500, 200⟩).2.count ReqEvent.request = 1 ∧
    ¬ (sfRequest ⟨401, 500, 200⟩).2.count ReqEvent.request = 2 := by decide

/-- C5 (amended): `_request` never performs more than one
re-authentication nor more than one retry; a non-401 first response is
returned directly with a single request; on a 401, exactly one
re-authentication is attempted and, if it succeeds, exactly one retry of
the same request is issued and its response returned, while a failing
re-authentication propagates its own error with no retry; and a failure
of the retried request is surfaced by the convenience wrappers as an
`HTTPStatusError` carrying the retried response's status. -/
theorem C5_request_retry (env : ReqEnv) :
    ((sfRequest env).2.count ReqEvent.authenticate ≤ 1 ∧
     (sfRequest env).2.count ReqEvent.request ≤ 2) ∧
    (¬ env.status1 = 401 → sfRequest env = (.ok env.status1, [.request])) ∧
    (env.status1 = 401 → (200 ≤ env.authStatus ∧ env.authStatus < 300) →
      sfRequest env = (.ok env.status2, [.request, .authenticate, .request])) ∧
    (env.status1 = 401 → ¬ (200 ≤ env.authStatus ∧ env.authStatus < 300) →
      sfRequest env = (.error (.http env.authStatus), [.request, .authenticate])) ∧
    (env.status1 = 401 → (200 ≤ env.authStatus ∧ env.authStatus < 300) →
      ¬ (200 ≤ env.status2 ∧ env.status2 < 300) →
      (sfRequestRaise env).1 = .error (.http env.status2)) := by
  refine ⟨?_, ?_, ?_, ?_, ?_⟩
  · unfold sfRequest
    by_cases h1 : env.status1 = 401
    · rw [if_pos h1]
      cases raiseForStatus env.authStatus <;> simp
    · rw [if_neg h1]
      simp
  · intro h1
    unfold sfRequest
    rw [if_neg h1]
  · intro h1 hauth
    unfold sfRequest
    rw [if_pos h1, raiseForStatus_ok env.authStatus hauth]
  · intro h1 hauth
    unfold sfRequest
    rw [if_pos h1, raiseForStatus_err env.authStatus hauth]
  · intro h1 hauth h2
    unfold sfRequestRaise
    rw [show sfRequest env = (.ok env.status2, [.request, .authenticate, .request]) by
      unfold sfRequest
      rw [if_pos h1, raiseForStatus_ok env.authStatus hauth]]
    dsimp only
    rw [raiseForStatus_err env.status2 h2]

/-- C5 witness: the amended theorem applied to a 401 first response with
a successful re-authentication and a failing retry. -/
theorem C5_request_retry_witness :
    sfRequest ⟨401, 200, 204⟩ = (.ok 204, [.request, .authenticate, .request]) ∧
    (sfRequestRaise ⟨401, 200, 500⟩).1 = .error (.http 500) := by
  constructor
  · exact (C5_request_retry ⟨401, 200, 204⟩).2.2.1 (by decide) (by decide)
  · exact (C5_request_retry ⟨401, 200, 500⟩).2.2.2.2 (by decide) (by decide) (by decide)

/- ---------------------------------------------------------------------
Claim C1: no partial writes on rejected requests.
--------------------------------------------------------------------- -/

theorem resolve_trace_no_mut (qs : ℤ) (ids : List Str) (n : Str) :
    ∀ c ∈ (resolve_implementation_id qs ids n).2, c.isMutating = false := by
  unfold resolve_implementation_id
  by_cases hcond : ((pyStrip n).length = 15 ∨ (pyStrip n).length = 18) ∧
      pyLower ((pyStrip n).take 2) = S "a0"
  · rw [if_pos hcond]
    intro c hc
    simp at hc
  · rw [if_neg hcond]
    dsimp only
    cases raiseForStatus qs with
    | error e => intro c hc; simp at hc; subst hc; rfl
    | ok u =>
      cases ids with
      | nil => intro c hc; simp at hc; subst hc; rfl
      | cons i rest => intro c hc; simp at hc; subst hc; rfl

theorem can_update_trace_no_mut (st : ACState) (gs : ℤ) (gc : Option Str) (id : Str) :
    ∀ c ∈ (can_update st gs gc id).2, c.isMutating = false := by
  unfold can_update
  by_cases hcond : st.is_admin = true ∨ st.is_manager = true
  · rw [if_pos hcond]
    intro c hc
    simp at hc
  · rw [if_neg hcond]
    dsimp only
    cases raiseForStatus gs with
    | error e => intro c hc; simp at hc; subst hc; rfl
    | ok u =>
      by_cases hgc : gc = st.user_id
      · rw [if_pos hgc]; intro c hc; simp at hc; subst hc; rfl
      · rw [if_neg hgc]; intro c hc; simp at hc; subst hc; rfl

/-- C1: whenever one of the three mutating tools returns a rate-limit,
validation (field-name or field/picklist value) or access-denied
message, its upstream trace contains no `create_record` or
`update_record` call — a rejected request causes no partial write. -/
theorem C1_no_partial_write :
    (∀ env args m, (create_implementation env args).1.result = .ok m →
      m.isRejection = true →
      ∀ c ∈ (create_implementation env args).1.trace, c.isMutating = false) ∧
    (∀ env nid updates m, (update_implementation env nid updates).result = .ok m →
      m.isRejection = true →
      ∀ c ∈ (update_implementation env nid updates).trace, c.isMutating = false) ∧
    (∀ env args m, (log_hours env args).1.result = .ok m →
      m.isRejection = true →
      ∀ c ∈ (log_hours env args).1.trace, c.isMutating = false) := by
  refine ⟨?_, ?_, ?_⟩
  · intro env args m hres hrej
    revert hres
    unfold create_implementation
    by_cases hrl : rateLimited env.now env.create_timestamps = true
    · rw [if_pos hrl]
      intro _ c hc
      simp at hc
    · rw [if_neg hrl]
      cases createChecks args with
      | some e =>
        intro _ c hc
        simp at hc
      | none =>
        dsimp only
        cases raiseForStatus env.oppStatus with
        | error e =>
          intro h
          simp at h
        | ok u =>
          cases env.oppRecords with
          | nil =>
            intro _ c hc
            simp at hc
            subst hc
            rfl
          | cons opp rest =>
            dsimp only
            cases raiseForStatus env.createStatus with
            | error e2 =>
              intro h
              simp at h
            | ok u2 =>
              intro h
              injection h with h2
              rw [← h2] at hrej
              simp [Msg.isRejection] at hrej
  · intro env nid updates m hres hrej
    revert hres
    unfold update_implementation
    split
    · next m0 tr heq =>
      intro _ c hc
      exact resolve_trace_no_mut env.resolveStatus env.resolveIds nid c
        (by rw [heq]; exact hc)
    · intro h
      simp at h
    · next rid tr heq =>
      split
      · intro h
        simp at h
      · next allowed reason tr2 heq2 =>
        have htr : ∀ c ∈ tr ++ tr2, UpCall.isMutating c = false := by
          intro c hc
          rcases List.mem_append.mp hc with h1 | h2
          · exact resolve_trace_no_mut env.resolveStatus env.resolveIds nid c
              (by rw [heq]; exact h1)
          · exact can_update_trace_no_mut env.ac env.getStatus env.getCde rid c
              (by rw [heq2]; exact h2)
        by_cases hall : ¬ allowed = true
        · rw [if_pos hall]
          intro _ c hc
          exact htr c hc
        · rw [if_neg hall]
          by_cases hinv : invalidFields updates ≠ []
          · rw [if_pos hinv]
            intro _ c hc
            exact htr c hc
          · rw [if_neg hinv]
            cases firstPicklistErr updates with
            | some e =>
              intro _ c hc
              exact htr c hc
            | none =>
              dsimp only
              cases raiseForStatus env.updateStatus with
              | error e =>
                intro h
                simp at h
              | ok u =>
                intro h
                injection h with h2
                rw [← h2] at hrej
                simp [Msg.isRejection] at hrej
  · intro env args m hres hrej
    revert hres
    unfold log_hours
    by_cases hrl : rateLimited env.now env.create_timestamps = true
    · rw [if_pos hrl]
      intro _ c hc
      simp at hc
    · rw [if_neg hrl]
      by_cases htk : ¬ truthy args.project_task = true
      · rw [if_pos htk]
        intro _ c hc
        simp at hc
      · rw [if_neg htk]
        split
        · next m0 tr heq =>
          intro _ c hc
          exact resolve_trace_no_mut env.resolveStatus env.resolveIds
            args.record_name_or_id c (by rw [heq]; exact hc)
        · intro h
          simp at h
        · next rid tr heq =>
          have htr : ∀ c ∈ tr, UpCall.isMutating c = false := fun c hc =>
            resolve_trace_no_mut env.resolveStatus env.resolveIds
              args.record_name_or_id c (by rw [heq]; exact hc)
          by_cases hinv : invalidTasks (args.project_task.getD []) ≠ []
          · rw [if_pos hinv]
            intro _ c hc
            exact htr c hc
          · rw [if_neg hinv]
            by_cases hpt : truthy args.project_type = true ∧
                ¬ (args.project_type.getD []) ∈ VALID_PROJECT_TYPES
            · rw [if_pos hpt]
              intro _ c hc
              exact htr c hc
            · rw [if_neg hpt]
              by_cases hrs : truthy args.record_stage = true ∧
                  ¬ (args.record_stage.getD []) ∈ VALID_RECORD_STAGES
              · rw [if_pos hrs]
                intro _ c hc
                exact htr c hc
              · rw [if_neg hrs]
                dsimp only
                cases raiseForStatus env.createStatus with
                | error e =>
                  intro h
                  simp at h
                | ok u =>
                  intro h
                  injection h with h2
                  rw [← h2] at hrej
                  simp [Msg.isRejection] at hrej

/-- C1 witness: a rate-limited create (five timestamps already inside
the window) returns the rate-limit message and issues no upstream call
at all. -/
theorem C1_no_partial_write_witness :
    (create_implementation ⟨0, 0, [0, 0, 0, 0, 0], S "2026-01-01", 201,
        [⟨S "001A", some (S "Acme")⟩], 201, some (S "a0B")⟩
      ⟨S "006A", S "Join", S "Annual", none, none, none⟩).1.result =
        .ok .rateLimit ∧
    Msg.isRejection .rateLimit = true ∧
    ∀ c ∈ (create_implementation ⟨0, 0, [0, 0, 0, 0, 0], S "2026-01-01", 201,
        [⟨S "001A", some (S "Acme")⟩], 201, some (S "a0B")⟩
      ⟨S "006A", S "Join", S "Annual", none, none, none⟩).1.trace,
      c.isMutating = false :=
  ⟨by decide, by decide,
   C1_no_partial_write.1 ⟨0, 0, [0, 0, 0, 0, 0], S "2026-01-01", 201,
       [⟨S "001A", some (S "Acme")⟩], 201, some (S "a0B")⟩
     ⟨S "006A", S "Join", S "Annual", none, none, none⟩ .rateLimit
     (by decide) (by decide)⟩

/- ---------------------------------------------------------------------
Claim C3: the shared rate limiter.
--------------------------------------------------------------------- -/

/-- C3: an attempt at `now` is admitted iff fewer than 5 recorded
timestamps are newer than `now - 60`; five successful creates within a
window fill it and the sixth attempt in the same window is rejected with
the rate-limit message; a timestamp is appended (at the completion-time
clock reading) only when the guarded create succeeded, for both
`create_implementation` and `log_hours`; and once the oldest of five
in-window timestamps ages past 60 seconds, exactly one slot is free
again. -/
theorem C3_rate_limiter :
    (∀ (now : ℤ) (ts : List ℤ), rateAdmit now ts = true ↔
      (ts.filter (fun t => now - CREATE_WINDOW_SECONDS < t)).length <
        MAX_CREATES_PER_WINDOW) ∧
    (∀ (now : ℤ) (ts : List ℤ),
      MAX_CREATES_PER_WINDOW ≤
          (ts.filter (fun t => now - CREATE_WINDOW_SECONDS < t)).length →
      rateAdmit now ts = false) ∧
    (∀ env args, (create_implementation env args).2 = env.create_timestamps ∨
      ((create_implementation env args).2 = env.create_timestamps ++ [env.now2] ∧
       ∃ rid nm an, (create_implementation env args).1.result =
         .ok (.created rid nm an args.type args.contract_type))) ∧
    (∀ env args, (log_hours env args).2 = env.create_timestamps ∨
      ((log_hours env args).2 = env.create_timestamps ++ [env.now2] ∧
       ∃ hid rid td, (log_hours env args).1.result =
         .ok (.hoursLogged hid args.record_name_or_id rid args.hours
           (args.project_task.getD []) td args.notes))) ∧
    (∀ (t0 now : ℤ) (rest : List ℤ), rest.length = 4 →
      CREATE_WINDOW_SECONDS ≤ now - t0 →
      (∀ t ∈ rest, now - t < CREATE_WINDOW_SECONDS) →
      ((t0 :: rest).filter (fun t => now - t < CREATE_WINDOW_SECONDS)).length = 4 ∧
      rateAdmit now (t0 :: rest) = true) ∧
    ((create_implementation (demoCreateEnv 0 []) demoCreateArgs).2 = [0] ∧
     (create_implementation (demoCreateEnv 1 [0]) demoCreateArgs).2 = [0, 1] ∧
     (create_implementation (demoCreateEnv 2 [0, 1]) demoCreateArgs).2 = [0, 1, 2] ∧
     (create_implementation (demoCreateEnv 3 [0, 1, 2]) demoCreateArgs).2 =
       [0, 1, 2, 3] ∧
     (create_implementation (demoCreateEnv 4 [0, 1, 2, 3]) demoCreateArgs).2 =
       [0, 1, 2, 3, 4] ∧
     (create_implementation (demoCreateEnv 5 [0, 1, 2, 3, 4]) demoCreateArgs).1.result =
       .ok .rateLimit ∧
     (create_implementation (demoCreateEnv 5 [0, 1, 2, 3, 4]) demoCreateArgs).2 =
       [0, 1, 2, 3, 4] ∧
     (create_implementation (demoCreateEnv 61 [0, 1, 2, 3, 4]) demoCreateArgs).2 =
       [0, 1, 2, 3, 4, 61]) := by
  have hfil : ∀ (now : ℤ) (ts : List ℤ),
      ts.filter (fun t => now - t < CREATE_WINDOW_SECONDS) =
        ts.filter (fun t => now - CREATE_WINDOW_SECONDS < t) := by
    intro now ts
    apply List.filter_congr
    intro t _
    simp only [decide_eq_decide]
    omega
  refine ⟨?_, ?_, ?_, ?_, ?_, by decide⟩
  · intro now ts
    unfold rateAdmit rateLimited
    rw [hfil now ts]
    simp [Nat.not_le]
  · intro now ts h
    unfold rateAdmit rateLimited
    rw [hfil now ts]
    simp only [decide_eq_true_eq, decide_eq_false_iff_not, Classical.not_not, not_not]
    simpa using h
  · intro env args
    unfold create_implementation
    by_cases hrl : rateLimited env.now env.create_timestamps = true
    · rw [if_pos hrl]
      left
      rfl
    · rw [if_neg hrl]
      cases createChecks args with
      | some e => left; rfl
      | none =>
        dsimp only
        cases raiseForStatus env.oppStatus with
        | error e => left; rfl
        | ok u =>
          cases env.oppRecords with
          | nil => left; rfl
          | cons opp rest =>
            dsimp only
            cases raiseForStatus env.createStatus with
            | error e2 => left; rfl
            | ok u2 =>
              right
              exact ⟨rfl, _, _, _, rfl⟩
  · intro env args
    unfold log_hours
    by_cases hrl : rateLimited env.now env.create_timestamps = true
    · rw [if_pos hrl]
      left
      rfl
    · rw [if_neg hrl]
      by_cases htk : ¬ truthy args.project_task = true
      · rw [if_pos htk]
        left
        rfl
      · rw [if_neg htk]
        split
        · left; rfl
        · left; rfl
        · next rid tr heq =>
          by_cases hinv : invalidTasks (args.project_task.getD []) ≠ []
          · rw [if_pos hinv]
            left
            rfl
          · rw [if_neg hinv]
            by_cases hpt : truthy args.project_type = true ∧
                ¬ (args.project_type.getD []) ∈ VALID_PROJECT_TYPES
            · rw [if_pos hpt]
              left
              rfl
            · rw [if_neg hpt]
              by_cases hrs : truthy args.record_stage = true ∧
                  ¬ (args.record_stage.getD []) ∈ VALID_RECORD_STAGES
              · rw [if_pos hrs]
                left
                rfl
              · rw [if_neg hrs]
                dsimp only
                cases raiseForStatus env.createStatus with
                | error e => left; rfl
                | ok u =>
                  right
                  exact ⟨rfl, _, _, _, rfl⟩
  · intro t0 now rest hlen hold hin
    have h1 : (t0 :: rest).filter (fun t => now - t < CREATE_WINDOW_SECONDS) =
        rest.filter (fun t => now - t < CREATE_WINDOW_SECONDS) := by
      rw [List.filter_cons, if_neg (by simp; omega)]
    have h2 : rest.filter (fun t => now - t < CREATE_WINDOW_SECONDS) = rest :=
      List.filter_eq_self.mpr (fun t ht => by simpa using hin t ht)
    refine ⟨by rw [h1, h2, hlen], ?_⟩
    unfold rateAdmit rateLimited
    rw [h1, h2, hlen]
    decide

/-- C3 witness: the admit-iff and slot-restoration parts applied at
concrete clock values. -/
theorem C3_rate_limiter_witness :
    rateAdmit 5 [0, 1, 2, 3, 4] = false ∧
    ((0 :: [2, 3, 4, 5]).filter
        (fun t => (61 : ℤ) - t < CREATE_WINDOW_SECONDS)).length = 4 ∧
    rateAdmit 61 (0 :: [2, 3, 4, 5]) = true := by
  refine ⟨?_, ?_⟩
  · exact C3_rate_limiter.2.1 5 [0, 1, 2, 3, 4] (by decide)
  · exact C3_rate_limiter.2.2.2.2.1 0 61 [2, 3, 4, 5] (by decide) (by decide)
      (by decide)

/- ---------------------------------------------------------------------
Claim C9: the fixed defaults of created Implementation records.
--------------------------------------------------------------------- -/

theorem createData_stage (args : CreateArgs) (nm acc : Str) :
    dictLookup (createData args nm acc) (S "Implementation_Stage__c") =
      some (FieldVal.s (S "00 - Kick Off Call")) := by
  simp +decide [createData, dictLookup]

theorem createData_health (args : CreateArgs) (nm acc : Str) :
    dictLookup (createData args nm acc) (S "Program_Health__c") =
      some (FieldVal.s (S "Healthy")) := by
  simp +decide [createData, dictLookup]

theorem createData_inprod (args : CreateArgs) (nm acc : Str) :
    dictLookup (createData args nm acc) (S "In_Production__c") =
      some (FieldVal.b false) := by
  simp +decide [createData, dictLookup]

theorem createData_name (args : CreateArgs) (nm acc : Str) :
    dictLookup (createData args nm acc) (S "Name") = some (FieldVal.s nm) := by
  simp +decide [createData, dictLookup]

/-- C9: every `create_record` call issued by `create_implementation`
targets `Implementation__c` with the source's field map: in particular
`Implementation_Stage__c = "00 - Kick Off Call"`, `Program_Health__c =
"Healthy"`, `In_Production__c = false`, and `Name = "{Account Name} -
{type} - {today}"`, regardless of the caller's arguments. -/
theorem C9_create_defaults :
    ∀ env args sobj data,
      UpCall.createRecord sobj data ∈ (create_implementation env args).1.trace →
      sobj = S "Implementation__c" ∧
      (∃ opp, env.oppRecords.head? = some opp ∧
        data = createData args
          ((opp.accountName.getD (S "Unknown")) ++ S " - " ++ args.type ++
            S " - " ++ env.today) opp.accountId) ∧
      dictLookup data (S "Implementation_Stage__c") =
        some (FieldVal.s (S "00 - Kick Off Call")) ∧
      dictLookup data (S "Program_Health__c") = some (FieldVal.s (S "Healthy")) ∧
      dictLookup data (S "In_Production__c") = some (FieldVal.b false) ∧
      (∃ opp, env.oppRecords.head? = some opp ∧
        dictLookup data (S "Name") = some (FieldVal.s
          ((opp.accountName.getD (S "Unknown")) ++ S " - " ++ args.type ++
            S " - " ++ env.today))) := by
  intro env args sobj data
  unfold create_implementation
  by_cases hrl : rateLimited env.now env.create_timestamps = true
  · rw [if_pos hrl]
    intro hc
    simp at hc
  · rw [if_neg hrl]
    cases createChecks args with
    | some e => intro hc; simp at hc
    | none =>
      dsimp only
      cases raiseForStatus env.oppStatus with
      | error e => intro hc; simp at hc
      | ok u =>
        cases env.oppRecords with
        | nil => intro hc; simp at hc
        | cons opp rest =>
          dsimp only
          cases raiseForStatus env.createStatus with
          | error e2 =>
            intro hc
            simp only [List.mem_cons, List.not_mem_nil, or_false,
              UpCall.createRecord.injEq] at hc
            simp at hc
            obtain ⟨hs, hd⟩ := hc
            subst hs
            subst hd
            refine ⟨rfl, ⟨opp, rfl, by simp⟩, createData_stage _ _ _,
              createData_health _ _ _, createData_inprod _ _ _,
              ⟨opp, rfl, by simpa using createData_name args _ opp.accountId⟩⟩
          | ok u2 =>
            intro hc
            simp only [List.mem_cons, List.not_mem_nil, or_false,
              UpCall.createRecord.injEq] at hc
            simp at hc
            obtain ⟨hs, hd⟩ := hc
            subst hs
            subst hd
            refine ⟨rfl, ⟨opp, rfl, by simp⟩, createData_stage _ _ _,
              createData_health _ _ _, createData_inprod _ _ _,
              ⟨opp, rfl, by simpa using createData_name args _ opp.accountId⟩⟩

/-- C9 witness: the theorem applied to the concrete healthy-upstream
create, whose trace contains exactly the expected create call. -/
theorem C9_create_defaults_witness :
    UpCall.createRecord (S "Implementation__c")
        (createData demoCreateArgs (S "Acme - Join - 2026-01-01") (S "001A")) ∈
      (create_implementation (demoCreateEnv 0 []) demoCreateArgs).1.trace ∧
    dictLookup (createData demoCreateArgs (S "Acme - Join - 2026-01-01") (S "001A"))
        (S "Program_Health__c") = some (FieldVal.s (S "Healthy")) :=
  ⟨by decide,
   (C9_create_defaults (demoCreateEnv 0 []) demoCreateArgs (S "Implementation__c")
     (createData demoCreateArgs (S "Acme - Join - 2026-01-01") (S "001A"))
     (by decide)).2.2.2.1⟩

/- ---------------------------------------------------------------------
Claim C7: what crosses the tool boundary.
--------------------------------------------------------------------- -/

theorem raiseForStatus_error_elim {s : ℤ} {e : PyErr}
    (h : raiseForStatus s = .error e) :
    e = .http s ∧ (s < 200 ∨ 300 ≤ s) := by
  unfold raiseForStatus at h
  split_ifs at h with hok
  cases h
  exact ⟨rfl, by omega⟩

/-- C7 counterexample: a create invocation whose Opportunity query is
answered with a 500 lets the `HTTPStatusError` raised by
`raise_for_status` escape the tool function instead of returning a
plain-text message. -/
theorem C7_counterexample :
    (create_implementation ⟨0, 0, [], S "2026-01-01", 500, [], 201, none⟩
      ⟨S "006A", S "Join", S "Annual", none, none, none⟩).1.result =
      .error (.http 500) := by decide

theorem resolve_err_elim (qs : ℤ) (ids : List Str) (n : Str) (e : PyErr)
    (h : (resolve_implementation_id qs ids n).1 = .error e) :
    (∃ m, e = .value m) ∨ (e = .http qs ∧ (qs < 200 ∨ 300 ≤ qs)) := by
  unfold resolve_implementation_id at h
  by_cases hcond : ((pyStrip n).length = 15 ∨ (pyStrip n).length = 18) ∧
      pyLower ((pyStrip n).take 2) = S "a0"
  · rw [if_pos hcond] at h
    exact absurd h (by simp)
  · rw [if_neg hcond] at h
    dsimp only at h
    cases hq : raiseForStatus qs with
    | error e0 =>
      rw [hq] at h
      dsimp only at h
      right
      rw [← Except.error.inj h]
      exact raiseForStatus_error_elim hq
    | ok u =>
      rw [hq] at h
      cases ids with
      | nil =>
        left
        exact ⟨_, (Except.error.inj h).symm⟩
      | cons i rest =>
        exact absurd h (by simp)

theorem can_update_err_elim (st : ACState) (gs : ℤ) (gc : Option Str) (id : Str)
    (e : PyErr) (h : (can_update st gs gc id).1 = .error e) :
    e = .http gs ∧ (gs < 200 ∨ 300 ≤ gs) := by
  unfold can_update at h
  by_cases hcond : st.is_admin = true ∨ st.is_manager = true
  · rw [if_pos hcond] at h
    exact absurd h (by simp)
  · rw [if_neg hcond] at h
    dsimp only at h
    cases hq : raiseForStatus gs with
    | error e0 =>
      rw [hq] at h
      dsimp only at h
      rw [← Except.error.inj h]
      exact raiseForStatus_error_elim hq
    | ok u =>
      rw [hq] at h
      by_cases hgc : gc = st.user_id
      · rw [if_pos hgc] at h
        exact absurd h (by simp)
      · rw [if_neg hgc] at h
        exact absurd h (by simp)

/-- C7 (amended): rate-limit, validation, access-denied and
record-not-found failures are returned as plain-text messages, and the
resolver's `ValueError` never escapes any tool; but an upstream HTTP
failure is not converted to text — the only exceptions that cross the
tool boundary, for all five tools, are `HTTPStatusError`s carrying a
non-2xx upstream status. -/
theorem C7_only_http_escapes :
    (∀ env args e, (create_implementation env args).1.result = .error e →
      ∃ s, e = PyErr.http s ∧ (s < 200 ∨ 300 ≤ s)) ∧
    (∀ env nid updates e, (update_implementation env nid updates).result = .error e →
      ∃ s, e = PyErr.http s ∧ (s < 200 ∨ 300 ≤ s)) ∧
    (∀ env args e, (log_hours env args).1.result = .error e →
      ∃ s, e = PyErr.http s ∧ (s < 200 ∨ 300 ≤ s)) ∧
    (∀ env qt soql e, (query_implementations env qt soql).result = .error e →
      ∃ s, e = PyErr.http s ∧ (s < 200 ∨ 300 ≤ s)) ∧
    (∀ env nid e, (get_implementation env nid).result = .error e →
      ∃ s, e = PyErr.http s ∧ (s < 200 ∨ 300 ≤ s)) := by
  refine ⟨?_, ?_, ?_, ?_, ?_⟩
  · intro env args e
    unfold create_implementation
    by_cases hrl : rateLimited env.now env.create_timestamps = true
    · rw [if_pos hrl]
      intro h
      exact absurd h (by simp)
    · rw [if_neg hrl]
      cases createChecks args with
      | some e0 =>
        intro h
        exact absurd h (by simp)
      | none =>
        dsimp only
        cases hq : raiseForStatus env.oppStatus with
        | error e0 =>
          dsimp only
          intro h
          cases h
          obtain ⟨he, hs⟩ := raiseForStatus_error_elim hq
          exact ⟨_, he, hs⟩
        | ok u =>
          cases env.oppRecords with
          | nil =>
            intro h
            exact absurd h (by simp)
          | cons opp rest =>
            dsimp only
            cases hq2 : raiseForStatus env.createStatus with
            | error e2 =>
              dsimp only
              intro h
              cases h
              obtain ⟨he, hs⟩ := raiseForStatus_error_elim hq2
              exact ⟨_, he, hs⟩
            | ok u2 =>
              intro h
              exact absurd h (by simp)
  · intro env nid updates e
    unfold update_implementation
    split
    · intro h
      exact absurd h (by simp)
    · next e0 tr hne heq =>
      dsimp only
      intro h
      cases h
      rcases resolve_err_elim env.resolveStatus env.resolveIds nid e
          (by rw [heq]) with ⟨m0, hm⟩ | ⟨he, hs⟩
      · exact (hne m0 hm).elim
      · exact ⟨_, he, hs⟩
    · next rid tr heq =>
      split
      · next e0 tr2 heq2 =>
        dsimp only
        intro h
        cases h
        obtain ⟨he, hs⟩ := can_update_err_elim env.ac env.getStatus env.getCde rid e
          (by rw [heq2])
        exact ⟨_, he, hs⟩
      · next allowed reason tr2 heq2 =>
        by_cases hall : ¬ allowed = true
        · rw [if_pos hall]
          intro h
          exact absurd h (by simp)
        · rw [if_neg hall]
          by_cases hinv : invalidFields updates ≠ []
          · rw [if_pos hinv]
            intro h
            exact absurd h (by simp)
          · rw [if_neg hinv]
            cases firstPicklistErr updates with
            | some e0 =>
              intro h
              exact absurd h (by simp)
            | none =>
              dsimp only
              cases hq : raiseForStatus env.updateStatus with
              | error e0 =>
                dsimp only
                intro h
                cases h
                obtain ⟨he, hs⟩ := raiseForStatus_error_elim hq
                exact ⟨_, he, hs⟩
              | ok u =>
                intro h
                exact absurd h (by simp)
  · intro env args e
    unfold log_hours
    by_cases hrl : rateLimited env.now env.create_timestamps = true
    · rw [if_pos hrl]
      intro h
      exact absurd h (by simp)
    · rw [if_neg hrl]
      by_cases htk : ¬ truthy args.project_task = true
      · rw [if_pos htk]
        intro h
        exact absurd h (by simp)
      · rw [if_neg htk]
        split
        · intro h
          exact absurd h (by simp)
        · next e0 tr hne heq =>
          dsimp only
          intro h
          cases h
          rcases resolve_err_elim env.resolveStatus env.resolveIds
              args.record_name_or_id e (by rw [heq]) with ⟨m0, hm⟩ | ⟨he, hs⟩
          · exact (hne m0 hm).elim
          · exact ⟨_, he, hs⟩
        · next rid tr heq =>
          by_cases hinv : invalidTasks (args.project_task.getD []) ≠ []
          · rw [if_pos hinv]
            intro h
            exact absurd h (by simp)
          · rw [if_neg hinv]
            by_cases hpt : truthy args.project_type = true ∧
                ¬ (args.project_type.getD []) ∈ VALID_PROJECT_TYPES
            · rw [if_pos hpt]
              intro h
              exact absurd h (by simp)
            · rw [if_neg hpt]
              by_cases hrs : truthy args.record_stage = true ∧
                  ¬ (args.record_stage.getD []) ∈ VALID_RECORD_STAGES
              · rw [if_pos hrs]
                intro h
                exact absurd h (by simp)
              · rw [if_neg hrs]
                dsimp only
                cases hq : raiseForStatus env.createStatus with
                | error e0 =>
                  dsimp only
                  intro h
                  cases h
                  obtain ⟨he, hs⟩ := raiseForStatus_error_elim hq
                  exact ⟨_, he, hs⟩
                | ok u =>
                  intro h
                  exact absurd h (by simp)
  · intro env qt soql e
    unfold query_implementations
    by_cases hcustom : qt = S "custom"
    · rw [if_pos hcustom]
      by_cases hsq : ¬ truthy soql = true
      · rw [if_pos hsq]
        intro h
        exact absurd h (by simp)
      · rw [if_neg hsq]
        by_cases hsel : ¬ (S "SELECT").isPrefixOf (pyUpper (pyStrip (soql.getD []))) = true
        · rw [if_pos hsel]
          intro h
          exact absurd h (by simp)
        · rw [if_neg hsel]
          dsimp only
          cases hq : raiseForStatus env.queryStatus with
          | error e0 =>
            dsimp only
            intro h
            cases h
            obtain ⟨he, hs⟩ := raiseForStatus_error_elim hq
            exact ⟨_, he, hs⟩
          | ok u =>
            by_cases htot : env.totalSize = 0
            · rw [if_pos htot]
              intro h
              exact absurd h (by simp)
            · rw [if_neg htot]
              intro h
              exact absurd h (by simp)
    · rw [if_neg hcustom]
      cases dictLookup cannedQueries qt with
      | none =>
        intro h
        exact absurd h (by simp)
      | some soql0 =>
        dsimp only
        cases hq : raiseForStatus env.queryStatus with
        | error e0 =>
          dsimp only
          intro h
          cases h
          obtain ⟨he, hs⟩ := raiseForStatus_error_elim hq
          exact ⟨_, he, hs⟩
        | ok u =>
          by_cases htot : env.totalSize = 0
          · rw [if_pos htot]
            intro h
            exact absurd h (by simp)
          · rw [if_neg htot]
            by_cases hbs : qt = S "by_stage"
            · rw [if_pos hbs]
              intro h
              exact absurd h (by simp)
            · rw [if_neg hbs]
              intro h
              exact absurd h (by simp)
  · intro env nid e
    unfold get_implementation
    split
    · intro h
      exact absurd h (by simp)
    · next e0 tr hne heq =>
      dsimp only
      intro h
      cases h
      rcases resolve_err_elim env.resolveStatus env.resolveIds nid e
          (by rw [heq]) with ⟨m0, hm⟩ | ⟨he, hs⟩
      · exact (hne m0 hm).elim
      · exact ⟨_, he, hs⟩
    · next rid tr heq =>
      dsimp only
      cases hq : raiseForStatus env.getStatus with
      | error e0 =>
        dsimp only
        intro h
        cases h
        obtain ⟨he, hs⟩ := raiseForStatus_error_elim hq
        exact ⟨_, he, hs⟩
      | ok u =>
        intro h
        exact absurd h (by simp)

/-- C7 witness: the amended theorem applied to the create invocation of
the counterexample, whose escaping exception is the 500 from the
Opportunity query. -/
theorem C7_only_http_escapes_witness :
    ∃ s, PyErr.http 500 = PyErr.http s ∧ (s < 200 ∨ 300 ≤ s) :=
  C7_only_http_escapes.1 ⟨0, 0, [], S "2026-01-01", 500, [], 201, none⟩
    ⟨S "006A", S "Join", S "Annual", none, none, none⟩ (.http 500) (by decide)
